import Mathlib

/-!
Verification of the point-of-sale state containers
(`SalesContext.tsx` and `OrderContext.tsx`).

The TypeScript code is shallowly embedded:
* JS numbers on these records are modelled as `Int` (the code only moves
  them around and tests truthiness, where `0` is the only falsy number
  that occurs);
* optional / possibly-absent fields are `Option`s;
* `Date.now()` and `new Date().toISOString()` are modelled by passing the
  current clock value `t : Nat` explicitly to every operation that reads
  the clock; both renderings are injective images of the instant, so the
  id suffix uses `Nat.repr t` (the decimal rendering `${Date.now()}`
  produces) and the `date` field stores `Nat.repr t` as well;
* the JS `x || d` idiom is `numOr` / `intOr` / `strOr` below (for numbers
  `0` is falsy, for strings `""` is falsy, `undefined` is falsy);
* React state plus the `saleCreationInProgress` ref, the activity log and
  the queue of `setTimeout(..., 0)` callbacks are gathered into one
  `SystemState`; a `setTimeout` callback scheduled by `updateOrder` is
  recorded in `pending` (FIFO, as the event loop runs them) and executed
  by `runOnePending`.
`localStorage` mirroring is a write-only side effect (never observed by
the operations modelled here) and is omitted.
-/

/-- JS `x || d` for a possibly-absent number field; `0` and `undefined`
are falsy. -/
def numOr (x : Option Int) (d : Int) : Int :=
  match x with
  | none => d
  | some v => if v = 0 then d else v

/-- JS `x || d` for a present number field; `0` is falsy. -/
def intOr (x d : Int) : Int :=
  if x = 0 then d else x

/-- JS `x || d` for a possibly-absent string field; `""` and `undefined`
are falsy. -/
def strOr (x : Option String) (d : String) : String :=
  match x with
  | none => d
  | some s => if s = "" then d else s

/-- `interface SaleItem` in `SalesContext.tsx`. -/
structure SaleItem where
  productId : String
  quantity : Int
  price : Int
  deriving Repr, DecidableEq

/-- `interface Sale` in `SalesContext.tsx`. -/
structure Sale where
  id : String
  items : List SaleItem
  subtotal : Int
  total : Int
  discount : Int
  paymentReceived : Int
  change : Int
  date : String
  cashier : String
  storeLocation : String
  deriving Repr, DecidableEq

/-- An item of an `addSale` argument.  `quantity` / `price` may be absent:
the code defends with `item.quantity || 0` even though the TS type
requires them. -/
structure SaleItemInput where
  productId : String
  quantity : Option Int
  price : Option Int
  deriving Repr, DecidableEq

/-- The argument of `addSale`: `Omit<Sale, 'id' | 'date'>`, with the
numeric fields possibly absent (the code defends with `|| 0`).
A `date` field supplied by a caller (as `createSaleFromOrder` does) is
overwritten inside `addSale`, so it is not carried here. -/
structure SaleInput where
  items : List SaleItemInput
  subtotal : Option Int
  total : Option Int
  discount : Option Int
  paymentReceived : Option Int
  change : Option Int
  cashier : String
  storeLocation : String
  deriving Repr, DecidableEq

/-- The `newSale` record built by `addSale` at clock value `t`:
`id = `SALE-${Date.now()}``, `date = new Date().toISOString()`,
numeric fields defaulted with `|| 0`, items defaulted item-wise. -/
def mkSale (t : Nat) (saleData : SaleInput) : Sale :=
  { id := "SALE-" ++ Nat.repr t
    date := Nat.repr t
    subtotal := numOr saleData.subtotal 0
    total := numOr saleData.total 0
    discount := numOr saleData.discount 0
    paymentReceived := numOr saleData.paymentReceived 0
    change := numOr saleData.change 0
    items := saleData.items.map fun item =>
      { productId := item.productId
        quantity := numOr item.quantity 0
        price := numOr item.price 0 }
    cashier := saleData.cashier
    storeLocation := saleData.storeLocation }

/-- `addSale`: append the defaulted record to the sales sequence
(`setSales(prev => [...prev, newSale])`). -/
def addSale (t : Nat) (saleData : SaleInput) (sales : List Sale) : List Sale :=
  sales ++ [mkSale t saleData]

/-- `getSaleById`: `sales.find(sale => sale.id === id)`. -/
def getSaleById (id : String) (sales : List Sale) : Option Sale :=
  sales.find? fun sale => sale.id == id

/-- `clearSales`: `setSales([])`. -/
def clearSales (_sales : List Sale) : List Sale :=
  []

/-- `status: 'pending' | 'processing' | 'completed' | 'cancelled'`. -/
inductive OrderStatus
  | pending
  | processing
  | completed
  | cancelled
  deriving Repr, DecidableEq

/-- The rendering of a status value used in log messages. -/
def OrderStatus.render : OrderStatus → String
  | .pending => "pending"
  | .processing => "processing"
  | .completed => "completed"
  | .cancelled => "cancelled"

/-- `paymentMethod: 'cash' | 'card' | 'mobile' | 'bank_transfer'`. -/
inductive PaymentMethod
  | cash
  | card
  | mobile
  | bankTransfer
  deriving Repr, DecidableEq

/-- `interface OrderItem` (same shape as `SaleItem`). -/
structure OrderItem where
  productId : String
  quantity : Int
  price : Int
  deriving Repr, DecidableEq

/-- `interface Order` in `OrderContext.tsx`.  `notes?`, `createdBy?` and
`saleCreated?` are optional fields. -/
structure Order where
  id : String
  customerName : String
  contactNumber : String
  email : String
  deliveryAddress : String
  items : List OrderItem
  subtotal : Int
  total : Int
  discount : Int
  status : OrderStatus
  paymentMethod : PaymentMethod
  orderDate : String
  notes : Option String
  createdBy : Option String
  finalAmount : Int
  advancePayment : Int
  saleCreated : Option Bool
  deriving Repr, DecidableEq

/-- The argument of `addOrder`: `Omit<Order, 'id' | 'orderDate'>`.
`saleCreated` may be supplied by the caller but is overridden. -/
structure OrderInput where
  customerName : String
  contactNumber : String
  email : String
  deliveryAddress : String
  items : List OrderItem
  subtotal : Int
  total : Int
  discount : Int
  status : OrderStatus
  paymentMethod : PaymentMethod
  notes : Option String
  createdBy : Option String
  finalAmount : Int
  advancePayment : Int
  saleCreated : Option Bool
  deriving Repr, DecidableEq

/-- The argument of `updateOrder`: `Partial<Order>`.  Every field may be
absent; `none` means the key is missing from the update object.  For the
fields that are themselves optional on `Order` the present value is the
inner `Option`. -/
structure OrderUpdate where
  id : Option String := none
  customerName : Option String := none
  contactNumber : Option String := none
  email : Option String := none
  deliveryAddress : Option String := none
  items : Option (List OrderItem) := none
  subtotal : Option Int := none
  total : Option Int := none
  discount : Option Int := none
  status : Option OrderStatus := none
  paymentMethod : Option PaymentMethod := none
  orderDate : Option String := none
  notes : Option (Option String) := none
  createdBy : Option (Option String) := none
  finalAmount : Option Int := none
  advancePayment : Option Int := none
  saleCreated : Option (Option Bool) := none
  deriving Repr, DecidableEq

/-- The JS spread `{ ...order, ...updates }`: a field present in
`updates` overwrites, every other field keeps its previous value. -/
def mergeOrder (order : Order) (updates : OrderUpdate) : Order :=
  { id := updates.id.getD order.id
    customerName := updates.customerName.getD order.customerName
    contactNumber := updates.contactNumber.getD order.contactNumber
    email := updates.email.getD order.email
    deliveryAddress := updates.deliveryAddress.getD order.deliveryAddress
    items := updates.items.getD order.items
    subtotal := updates.subtotal.getD order.subtotal
    total := updates.total.getD order.total
    discount := updates.discount.getD order.discount
    status := updates.status.getD order.status
    paymentMethod := updates.paymentMethod.getD order.paymentMethod
    orderDate := updates.orderDate.getD order.orderDate
    notes := updates.notes.getD order.notes
    createdBy := updates.createdBy.getD order.createdBy
    finalAmount := updates.finalAmount.getD order.finalAmount
    advancePayment := updates.advancePayment.getD order.advancePayment
    saleCreated := updates.saleCreated.getD order.saleCreated }

/-- One `logActivity(actor, eventType, message)` record. -/
structure LogEntry where
  actor : String
  eventType : String
  message : String
  deriving Repr, DecidableEq

/-- The combined state of the two providers: the two React state arrays,
the activity log, the `saleCreationInProgress` ref (a set of order ids,
kept as a list), and the FIFO queue of deferred `createSaleFromOrder`
callbacks scheduled with `setTimeout(..., 0)`, each holding the order
snapshot it captured. -/
structure SystemState where
  orders : List Order
  sales : List Sale
  log : List LogEntry
  inProgress : List String
  pending : List Order
  deriving Repr, DecidableEq

/-- The `newOrder` record built by `addOrder` at clock value `t`:
`{ ...orderData, id: `ORD-${Date.now()}`, orderDate: ..., saleCreated: false }`.
`saleCreated: false` comes after the spread, so it overrides any value in
the input. -/
def newOrderOf (t : Nat) (orderData : OrderInput) : Order :=
  { id := "ORD-" ++ Nat.repr t
    customerName := orderData.customerName
    contactNumber := orderData.contactNumber
    email := orderData.email
    deliveryAddress := orderData.deliveryAddress
    items := orderData.items
    subtotal := orderData.subtotal
    total := orderData.total
    discount := orderData.discount
    status := orderData.status
    paymentMethod := orderData.paymentMethod
    orderDate := Nat.repr t
    notes := orderData.notes
    createdBy := orderData.createdBy
    finalAmount := orderData.finalAmount
    advancePayment := orderData.advancePayment
    saleCreated := some false }

/-- `addOrder`: append the new order and emit `ORDER_CREATED`. -/
def addOrder (t : Nat) (orderData : OrderInput) (s : SystemState) : SystemState :=
  let newOrder := newOrderOf t orderData
  { s with
    orders := s.orders ++ [newOrder]
    log := s.log ++ [⟨strOr newOrder.createdBy "system", "ORDER_CREATED",
      "Nouvelle commande " ++ newOrder.id ++ " créée"⟩] }

/-- The `sale` object literal built inside `createSaleFromOrder` and
submitted to `addSale`.  (The literal also carries a `date` field, which
`addSale` overwrites, so it is not part of `SaleInput`.) -/
def salePayload (order : Order) : SaleInput :=
  { items := order.items.map fun item =>
      { productId := item.productId
        quantity := some item.quantity
        price := some item.price }
    subtotal := some order.total
    total := some order.finalAmount
    discount := some (intOr order.discount 0)
    paymentReceived := some (intOr order.advancePayment order.finalAmount)
    change := some 0
    cashier := strOr order.createdBy "System"
    storeLocation := "UP2DATE FASHION" }

/-- `createSaleFromOrder(order)` at clock value `t`: no-op when
`order.id` is in the in-progress set; otherwise add the id to the set,
submit `salePayload order` to `addSale`, emit `SALE_CREATED_FROM_ORDER`,
mark every stored order with this id as `saleCreated: true`, and finally
delete the id from the set again. -/
def createSaleFromOrder (t : Nat) (order : Order) (s : SystemState) : SystemState :=
  if s.inProgress.contains order.id then s
  else
    let marked := order.id :: s.inProgress
    { s with
      sales := addSale t (salePayload order) s.sales
      log := s.log ++ [⟨strOr order.createdBy "system", "SALE_CREATED_FROM_ORDER",
        "Vente créée à partir de la commande " ++ order.id⟩]
      orders := s.orders.map fun o =>
        if o.id = order.id then { o with saleCreated := some true } else o
      inProgress := marked.filter fun i => i ≠ order.id }

/-- The body of the `prev.map(order => ...)` callback in `updateOrder`:
for a matching order, the merged order, the status-change log entries it
emits, and the deferred `createSaleFromOrder` callbacks it schedules
(each capturing the post-merge snapshot `updatedOrder`).  A status-change
entry is emitted only when `updates.status` is present (all status
strings are truthy) and differs from the current status; a derivation is
scheduled only when additionally the new status is `completed` and
`!order.saleCreated` holds on the pre-merge order. -/
def updateOneOrder (id : String) (updates : OrderUpdate) (order : Order) :
    Order × List LogEntry × List Order :=
  if order.id = id then
    let updatedOrder := mergeOrder order updates
    match updates.status with
    | some st =>
      if st ≠ order.status then
        ( updatedOrder,
          [⟨strOr order.createdBy "system", "ORDER_STATUS_UPDATED",
            "Statut de la commande " ++ order.id ++ " mis à jour: " ++
              order.status.render ++ " → " ++ st.render⟩],
          if st = OrderStatus.completed ∧ ¬order.saleCreated = some true then
            [updatedOrder]
          else [] )
      else (updatedOrder, [], [])
    | none => (updatedOrder, [], [])
  else (order, [], [])

/-- `updateOrder(id, updates)`: map `updateOneOrder` over the sequence;
log entries and scheduled callbacks accumulate in traversal order. -/
def updateOrder (id : String) (updates : OrderUpdate) (s : SystemState) : SystemState :=
  let results := s.orders.map (updateOneOrder id updates)
  { s with
    orders := results.map fun r => r.1
    log := s.log ++ (results.map fun r => r.2.1).flatten
    pending := s.pending ++ (results.map fun r => r.2.2).flatten }

/-- Run the oldest deferred `setTimeout` callback (if any) at clock
value `t`: pop it from the queue and execute `createSaleFromOrder` on
the order snapshot it captured. -/
def runOnePending (t : Nat) (s : SystemState) : SystemState :=
  match s.pending with
  | [] => s
  | order :: rest => createSaleFromOrder t order { s with pending := rest }

/-- `deleteOrder(id)`: look the order up (`orders.find`), emit
`ORDER_DELETED` when found, then remove every order with this id
(`prev.filter(order => order.id !== id)`) — the removal is a separate
step and does not depend on the log step. -/
def deleteOrder (id : String) (s : SystemState) : SystemState :=
  let found := s.orders.find? fun o => o.id == id
  { s with
    log := match found with
      | some o => s.log ++ [⟨strOr o.createdBy "system", "ORDER_DELETED",
          "Commande " ++ o.id ++ " supprimée"⟩]
      | none => s.log
    orders := s.orders.filter fun o => o.id ≠ id }

/-- `getOrderById`: `orders.find(order => order.id === id)`. -/
def getOrderById (id : String) (s : SystemState) : Option Order :=
  s.orders.find? fun o => o.id == id

/-- "The input value when truthy, `0` when absent or falsy" — the
defaulting rule as the specification words it, for comparison with the
code's `|| 0`. -/
def truthyOrZero (x : Option Int) : Int :=
  match x with
  | none => 0
  | some v => if v ≠ 0 then v else 0

theorem numOr_zero_eq (x : Option Int) : numOr x 0 = truthyOrZero x := by
  cases x with
  | none => rfl
  | some v =>
    by_cases h : v = 0 <;> simp [numOr, truthyOrZero, h]

theorem updateOneOrder_fst (id : String) (u : OrderUpdate) (o : Order) :
    (updateOneOrder id u o).1 = if o.id = id then mergeOrder o u else o := by
  unfold updateOneOrder
  by_cases h : o.id = id
  · simp only [h, if_true]
    cases u.status with
    | none => rfl
    | some st => by_cases hst : st = o.status <;> simp [hst]
  · simp [h]

theorem updateOneOrder_of_ne (id : String) (u : OrderUpdate) (o : Order)
    (h : ¬o.id = id) : updateOneOrder id u o = (o, [], []) := by
  unfold updateOneOrder
  simp [h]

/-!
Injectivity of the decimal rendering `Nat.repr` used by the id
generators `` `SALE-${Date.now()}` `` and `` `ORD-${Date.now()}` ``:
two instants render to the same id suffix only when they are equal.
-/

theorem toDigitsCore_eq_digits :
    ∀ (fuel n : Nat) (acc : List Char), 0 < n → n < fuel →
      Nat.toDigitsCore 10 fuel n acc =
        ((Nat.digits 10 n).map Nat.digitChar).reverse ++ acc := by
  intro fuel
  induction fuel with
  | zero => intro n acc _ hlt; omega
  | succ fuel ih =>
    intro n acc hpos hlt
    have hdig : Nat.digits 10 n = n % 10 :: Nat.digits 10 (n / 10) :=
      Nat.digits_def' (by norm_num) hpos
    simp only [Nat.toDigitsCore]
    by_cases hdiv : n / 10 = 0
    · have : Nat.digits 10 (n / 10) = [] := by rw [hdiv]; simp
      simp [hdiv, hdig, this]
    · have hlt' : n / 10 < fuel :=
        Nat.lt_of_lt_of_le (Nat.div_lt_self hpos (by norm_num)) (Nat.lt_succ_iff.mp hlt)
      rw [if_neg hdiv, ih (n / 10) _ (Nat.pos_of_ne_zero hdiv) hlt', hdig]
      simp

theorem toDigits_eq_digits (n : Nat) (h : 0 < n) :
    Nat.toDigits 10 n = ((Nat.digits 10 n).map Nat.digitChar).reverse := by
  have := toDigitsCore_eq_digits (n + 1) n [] h (Nat.lt_succ_self n)
  simpa [Nat.toDigits] using this

theorem digitChar_inj_lt :
    ∀ a < 10, ∀ b < 10, Nat.digitChar a = Nat.digitChar b → a = b := by
  decide

theorem map_digitChar_inj :
    ∀ l1 l2 : List Nat, (∀ d ∈ l1, d < 10) → (∀ d ∈ l2, d < 10) →
      l1.map Nat.digitChar = l2.map Nat.digitChar → l1 = l2 := by
  intro l1
  induction l1 with
  | nil =>
    intro l2 _ _ h
    cases l2 with
    | nil => rfl
    | cons b tl => simp at h
  | cons a tl ih =>
    intro l2 h1 h2 h
    cases l2 with
    | nil => simp at h
    | cons b tl2 =>
      simp only [List.map_cons, List.cons.injEq] at h
      have ha : a = b :=
        digitChar_inj_lt a (h1 a (by simp)) b (h2 b (by simp)) h.1
      have htl := ih tl2 (fun d hd => h1 d (by simp [hd]))
        (fun d hd => h2 d (by simp [hd])) h.2
      rw [ha, htl]

theorem digits_map_reverse_ne_zero (n : Nat) (hn : 0 < n) :
    ((Nat.digits 10 n).map Nat.digitChar).reverse ≠ ['0'] := by
  intro h
  have hmap : (Nat.digits 10 n).map Nat.digitChar = ['0'] := by
    have := congrArg List.reverse h
    simpa using this
  cases hd : Nat.digits 10 n with
  | nil => rw [hd] at hmap; simp at hmap
  | cons d tl =>
    rw [hd] at hmap
    simp only [List.map_cons, List.cons.injEq] at hmap
    obtain ⟨hd0, htl⟩ := hmap
    have htl' : tl = [] := by simpa using htl
    have hdlt : d < 10 := Nat.digits_lt_base (by norm_num) (by rw [hd]; simp)
    have hd0' : d = 0 := digitChar_inj_lt d hdlt 0 (by norm_num) (by rw [hd0]; decide)
    have hod := Nat.ofDigits_digits 10 n
    rw [hd, htl', hd0'] at hod
    simp [Nat.ofDigits] at hod
    omega

theorem nat_repr_inj {m n : Nat} (h : Nat.repr m = Nat.repr n) : m = n := by
  have hdata : Nat.toDigits 10 m = Nat.toDigits 10 n := by
    have := congrArg String.data h
    simpa [Nat.repr, List.asString] using this
  have h0 : Nat.toDigits 10 0 = ['0'] := rfl
  rcases Nat.eq_zero_or_pos m with hm | hm <;> rcases Nat.eq_zero_or_pos n with hn | hn
  · omega
  · exfalso
    rw [hm, h0, toDigits_eq_digits n hn] at hdata
    exact digits_map_reverse_ne_zero n hn hdata.symm
  · exfalso
    rw [hn, h0, toDigits_eq_digits m hm] at hdata
    exact digits_map_reverse_ne_zero m hm hdata
  · rw [toDigits_eq_digits m hm, toDigits_eq_digits n hn] at hdata
    have hmap : (Nat.digits 10 m).map Nat.digitChar = (Nat.digits 10 n).map Nat.digitChar := by
      have := congrArg List.reverse hdata
      simpa using this
    have hdig := map_digitChar_inj _ _
      (fun d hd => Nat.digits_lt_base (by norm_num) hd)
      (fun d hd => Nat.digits_lt_base (by norm_num) hd) hmap
    exact Nat.digits.injective 10 hdig

theorem string_append_cancel {p x y : String} (h : p ++ x = p ++ y) : x = y := by
  apply String.ext
  have := congrArg String.data h
  simp only [String.data_append] at this
  exact List.append_cancel_left this

theorem flatten_map_nil {α β : Type} (l : List α) :
    (l.map fun _ => ([] : List β)).flatten = [] := by
  induction l with
  | nil => rfl
  | cons a tl ih => simp [ih]

theorem numOr_some_zero (v : Int) : numOr (some v) 0 = v := by
  by_cases h : v = 0 <;> simp [numOr, h]

theorem map_mark_no_match (oid : String) (l : List Order) (h : ∀ x ∈ l, x.id ≠ oid) :
    (l.map fun x => if x.id = oid then { x with saleCreated := some true } else x) = l := by
  induction l with
  | nil => rfl
  | cons a tl ih =>
    simp only [List.map_cons]
    rw [if_neg (h a (by simp)), ih fun x hx => h x (by simp [hx])]

/-- C8: after `clearSales()` the sales sequence is empty and
`getSaleById` returns the not-found sentinel (`undefined`, modelled as
`none`) for every id, including every previously-existing one. -/
theorem C8_clearSales_then_lookup_none (sales : List Sale) (id : String) :
    clearSales sales = [] ∧ getSaleById id (clearSales sales) = none :=
  ⟨rfl, rfl⟩

/-- C9: `updateOrder id u` maps every order whose id differs to itself
and every matching order to the shallow merge `{ ...order, ...u }`
(fields present in `u` overwrite, all other fields keep their previous
values — `mergeOrder`). -/
theorem C9_updateOrder_frame (id : String) (u : OrderUpdate) (s : SystemState) :
    (updateOrder id u s).orders =
      s.orders.map fun o => if o.id = id then mergeOrder o u else o := by
  unfold updateOrder
  simp only [List.map_map]
  exact List.map_congr_left fun o _ => updateOneOrder_fst id u o

/-- C10: `updateOrder` with an id matching no stored order leaves the
whole state unchanged: order sequence intact, no log entry, no deferred
sale-derivation scheduled. -/
theorem C10_updateOrder_no_match (id : String) (u : OrderUpdate) (s : SystemState)
    (h : ∀ o ∈ s.orders, o.id ≠ id) : updateOrder id u s = s := by
  unfold updateOrder
  have hmap : s.orders.map (updateOneOrder id u) = s.orders.map fun o => (o, [], []) :=
    List.map_congr_left fun o ho => updateOneOrder_of_ne id u o (h o ho)
  simp [hmap, List.map_map, Function.comp_def]

/-- C10 witness: a concrete state where no order carries the id. -/
theorem C10_witness :
    (∀ o ∈ (SystemState.mk [] [] [] [] []).orders, o.id ≠ "ORD-1") ∧
      updateOrder "ORD-1" { status := some OrderStatus.completed }
        (SystemState.mk [] [] [] [] []) = SystemState.mk [] [] [] [] [] :=
  ⟨by simp, C10_updateOrder_no_match "ORD-1" { status := some OrderStatus.completed }
    (SystemState.mk [] [] [] [] []) (by simp)⟩

/-- C4: the record stored by `addSale` is the input appended to the
sequence with each top-level numeric field and each item's
`quantity`/`price` replaced by the input value when truthy and `0` when
absent or falsy, and the remaining input fields unchanged. -/
theorem C4_addSale_defaults (t : Nat) (d : SaleInput) (sales : List Sale) :
    addSale t d sales = sales ++ [mkSale t d] ∧
    (mkSale t d).subtotal = truthyOrZero d.subtotal ∧
    (mkSale t d).total = truthyOrZero d.total ∧
    (mkSale t d).discount = truthyOrZero d.discount ∧
    (mkSale t d).paymentReceived = truthyOrZero d.paymentReceived ∧
    (mkSale t d).change = truthyOrZero d.change ∧
    (mkSale t d).items = (d.items.map fun item =>
      SaleItem.mk item.productId (truthyOrZero item.quantity) (truthyOrZero item.price)) ∧
    (mkSale t d).cashier = d.cashier ∧
    (mkSale t d).storeLocation = d.storeLocation := by
  refine ⟨rfl, numOr_zero_eq _, numOr_zero_eq _, numOr_zero_eq _, numOr_zero_eq _,
    numOr_zero_eq _, ?_, rfl, rfl⟩
  simp [mkSale, numOr_zero_eq]

/-- C3: when the in-progress guard does not block, the payload that
`createSaleFromOrder` submits to `addSale` has `items = order.items`,
`subtotal = order.total`, `total = order.finalAmount`,
`discount = order.discount` if truthy else `0`,
`paymentReceived = order.advancePayment` if truthy else
`order.finalAmount`, `change = 0`, `cashier = order.createdBy` if truthy
else `"System"`, and the fixed `storeLocation` constant. -/
theorem C3_createSaleFromOrder_payload (t : Nat) (order : Order) (s : SystemState)
    (h : s.inProgress.contains order.id = false) :
    (createSaleFromOrder t order s).sales = s.sales ++ [mkSale t (salePayload order)] ∧
    (salePayload order).items = (order.items.map fun item =>
      SaleItemInput.mk item.productId (some item.quantity) (some item.price)) ∧
    (salePayload order).subtotal = some order.total ∧
    (salePayload order).total = some order.finalAmount ∧
    (salePayload order).discount =
      some (if order.discount ≠ 0 then order.discount else 0) ∧
    (salePayload order).paymentReceived =
      some (if order.advancePayment ≠ 0 then order.advancePayment else order.finalAmount) ∧
    (salePayload order).change = some 0 ∧
    (salePayload order).cashier = (match order.createdBy with
      | some c => if c ≠ "" then c else "System"
      | none => "System") ∧
    (salePayload order).storeLocation = "UP2DATE FASHION" := by
  refine ⟨?_, rfl, rfl, rfl, ?_, ?_, rfl, ?_, rfl⟩
  · have h' : order.id ∉ s.inProgress := by simpa using h
    simp [createSaleFromOrder, addSale, h']
  · by_cases hd : order.discount = 0 <;> simp [salePayload, intOr, hd]
  · by_cases ha : order.advancePayment = 0 <;> simp [salePayload, intOr, ha]
  · cases hc : order.createdBy with
    | none => simp [salePayload, strOr, hc]
    | some c => by_cases he : c = "" <;> simp [salePayload, strOr, hc, he]

/-- A concrete order used to instantiate hypotheses in witnesses. -/
def sampleOrder : Order :=
  { id := "ORD-100"
    customerName := "A"
    contactNumber := "555"
    email := "a@b.c"
    deliveryAddress := "rue 1"
    items := [⟨"p1", 2, 10⟩]
    subtotal := 20
    total := 20
    discount := 2
    status := OrderStatus.pending
    paymentMethod := PaymentMethod.cash
    orderDate := "100"
    notes := none
    createdBy := none
    finalAmount := 18
    advancePayment := 0
    saleCreated := some false }

/-- C3 witness: the guard hypothesis holds in the empty state, and the
payload equations are obtained by applying the theorem there. -/
theorem C3_witness :
    (SystemState.mk [sampleOrder] [] [] [] []).inProgress.contains sampleOrder.id = false ∧
    ((createSaleFromOrder 3 sampleOrder (SystemState.mk [sampleOrder] [] [] [] [])).sales =
        (SystemState.mk [sampleOrder] [] [] [] []).sales ++ [mkSale 3 (salePayload sampleOrder)] ∧
      (salePayload sampleOrder).items = (sampleOrder.items.map fun item =>
        SaleItemInput.mk item.productId (some item.quantity) (some item.price)) ∧
      (salePayload sampleOrder).subtotal = some sampleOrder.total ∧
      (salePayload sampleOrder).total = some sampleOrder.finalAmount ∧
      (salePayload sampleOrder).discount =
        some (if sampleOrder.discount ≠ 0 then sampleOrder.discount else 0) ∧
      (salePayload sampleOrder).paymentReceived =
        some (if sampleOrder.advancePayment ≠ 0 then sampleOrder.advancePayment
          else sampleOrder.finalAmount) ∧
      (salePayload sampleOrder).change = some 0 ∧
      (salePayload sampleOrder).cashier = (match sampleOrder.createdBy with
        | some c => if c ≠ "" then c else "System"
        | none => "System") ∧
      (salePayload sampleOrder).storeLocation = "UP2DATE FASHION") :=
  ⟨rfl, C3_createSaleFromOrder_payload 3 sampleOrder
    (SystemState.mk [sampleOrder] [] [] [] []) rfl⟩

/-- A concrete `addSale` input used in counterexamples and witnesses. -/
def sampleSaleInput : SaleInput :=
  { items := [⟨"p1", some 2, some 10⟩]
    subtotal := some 20
    total := some 18
    discount := some 2
    paymentReceived := some 18
    change := some 0
    cashier := "System"
    storeLocation := "UP2DATE FASHION" }

/-- C5 counterexample: two `addSale` calls whose `Date.now()` values
fall in the same millisecond produce two stored sales with the same id
`"SALE-5"`, so the ids in the sales sequence are not pairwise
distinct. -/
theorem C5_counterexample :
    ¬ (addSale 5 sampleSaleInput (addSale 5 sampleSaleInput [])).Pairwise
        (fun s1 s2 => s1.id ≠ s2.id) := by
  decide

/-- C5 amended: two sales produced by distinct `addSale` calls have
distinct ids provided the calls read distinct `Date.now()` values
(`` `SALE-${Date.now()}` `` collides within a millisecond). -/
theorem C5_amended_fresh_ids (t1 t2 : Nat) (d1 d2 : SaleInput) (h : t1 ≠ t2) :
    (mkSale t1 d1).id ≠ (mkSale t2 d2).id := by
  intro hid
  simp only [mkSale] at hid
  exact h (nat_repr_inj (string_append_cancel hid))

/-- C5 witness: the amended theorem applied at clock values 1 and 2. -/
theorem C5_witness :
    (1 : Nat) ≠ 2 ∧ (mkSale 1 sampleSaleInput).id ≠ (mkSale 2 sampleSaleInput).id :=
  ⟨by decide, C5_amended_fresh_ids 1 2 sampleSaleInput sampleSaleInput (by decide)⟩

/-- A stored order whose id collides with the one `addOrder` generates
at clock value 5. -/
def collidingOrder : Order :=
  { id := "ORD-5"
    customerName := "Old"
    contactNumber := "111"
    email := "old@b.c"
    deliveryAddress := "rue 2"
    items := []
    subtotal := 5
    total := 5
    discount := 0
    status := OrderStatus.pending
    paymentMethod := PaymentMethod.card
    orderDate := "1"
    notes := none
    createdBy := none
    finalAmount := 5
    advancePayment := 0
    saleCreated := some false }

/-- A concrete `addOrder` input used in counterexamples and witnesses. -/
def sampleOrderInput : OrderInput :=
  { customerName := "New"
    contactNumber := "222"
    email := "new@b.c"
    deliveryAddress := "rue 3"
    items := [⟨"p1", 2, 10⟩]
    subtotal := 20
    total := 20
    discount := 2
    status := OrderStatus.pending
    paymentMethod := PaymentMethod.cash
    notes := none
    createdBy := none
    finalAmount := 18
    advancePayment := 0
    saleCreated := some true }

/-- C6 counterexample: when the store already holds an order whose id
equals the one `` `ORD-${Date.now()}` `` generates, the new order is
appended (with `saleCreated = false` even though the input said `true`)
but `getOrderById` returns the pre-existing record, not the new one. -/
theorem C6_counterexample :
    (addOrder 5 sampleOrderInput (SystemState.mk [collidingOrder] [] [] [] [])).orders =
      [collidingOrder, newOrderOf 5 sampleOrderInput] ∧
    (newOrderOf 5 sampleOrderInput).id = collidingOrder.id ∧
    getOrderById (newOrderOf 5 sampleOrderInput).id
      (addOrder 5 sampleOrderInput (SystemState.mk [collidingOrder] [] [] [] [])) =
      some collidingOrder ∧
    collidingOrder ≠ newOrderOf 5 sampleOrderInput := by
  refine ⟨by decide, by decide, by decide, by decide⟩

/-- C6 amended: provided the generated id `ORD-<t>` does not collide
with any stored order's id, `addOrder` appends exactly one new order
whose id is `ORD-<t>`, whose `orderDate` is the call-time timestamp and
whose `saleCreated` is `false` regardless of the input's `saleCreated`,
and a subsequent `getOrderById` with that id returns that record. -/
theorem C6_amended_addOrder_lookup (t : Nat) (d : OrderInput) (s : SystemState)
    (h : ∀ o ∈ s.orders, o.id ≠ "ORD-" ++ Nat.repr t) :
    (addOrder t d s).orders = s.orders ++ [newOrderOf t d] ∧
    (newOrderOf t d).id = "ORD-" ++ Nat.repr t ∧
    (newOrderOf t d).orderDate = Nat.repr t ∧
    (newOrderOf t d).saleCreated = some false ∧
    getOrderById (newOrderOf t d).id (addOrder t d s) = some (newOrderOf t d) := by
  refine ⟨rfl, rfl, rfl, rfl, ?_⟩
  have horders : (addOrder t d s).orders = s.orders ++ [newOrderOf t d] := rfl
  unfold getOrderById
  rw [horders, List.find?_append]
  have hnone : s.orders.find? (fun o => o.id == (newOrderOf t d).id) = none := by
    rw [List.find?_eq_none]
    intro o ho
    simpa using h o ho
  rw [hnone]
  simp

/-- C6 witness: the amended theorem applied to the empty store at clock
value 7. -/
theorem C6_witness :
    (∀ o ∈ (SystemState.mk [] [] [] [] [] : SystemState).orders,
      o.id ≠ "ORD-" ++ Nat.repr 7) ∧
    ((addOrder 7 sampleOrderInput (SystemState.mk [] [] [] [] [])).orders =
      (SystemState.mk [] [] [] [] [] : SystemState).orders ++ [newOrderOf 7 sampleOrderInput] ∧
    (newOrderOf 7 sampleOrderInput).id = "ORD-" ++ Nat.repr 7 ∧
    (newOrderOf 7 sampleOrderInput).orderDate = Nat.repr 7 ∧
    (newOrderOf 7 sampleOrderInput).saleCreated = some false ∧
    getOrderById (newOrderOf 7 sampleOrderInput).id
      (addOrder 7 sampleOrderInput (SystemState.mk [] [] [] [] [])) =
      some (newOrderOf 7 sampleOrderInput)) :=
  ⟨by simp, C6_amended_addOrder_lookup 7 sampleOrderInput
    (SystemState.mk [] [] [] [] []) (by simp)⟩

/-- C7: `deleteOrder id` removes every order with this id and keeps all
others; an `ORDER_DELETED` log entry is appended exactly when an order
with this id existed; and the removal is the unconditional `filter`
equation, independent of the log step's outcome. -/
theorem C7_deleteOrder_spec (id : String) (s : SystemState) :
    (deleteOrder id s).orders = s.orders.filter (fun o => o.id ≠ id) ∧
    (∀ o ∈ (deleteOrder id s).orders, o.id ≠ id) ∧
    (∀ o ∈ s.orders, o.id ≠ id → o ∈ (deleteOrder id s).orders) ∧
    ((∃ e, (deleteOrder id s).log = s.log ++ [e] ∧ e.eventType = "ORDER_DELETED") ↔
      ∃ o ∈ s.orders, o.id = id) := by
  have horders : (deleteOrder id s).orders = s.orders.filter (fun o => o.id ≠ id) := rfl
  refine ⟨horders, ?_, ?_, ?_⟩
  · intro o ho
    rw [horders] at ho
    simpa using (List.mem_filter.mp ho).2
  · intro o ho hne
    rw [horders]
    exact List.mem_filter.mpr ⟨ho, by simpa using hne⟩
  · constructor
    · rintro ⟨e, hlog, -⟩
      cases hfind : s.orders.find? (fun o => o.id == id) with
      | none =>
        exfalso
        have : (deleteOrder id s).log = s.log := by
          simp [deleteOrder, hfind]
        rw [this] at hlog
        have : s.log.length = s.log.length + 1 := by
          conv_lhs => rw [hlog]
          simp
        omega
      | some o =>
        refine ⟨o, List.mem_of_find?_eq_some hfind, ?_⟩
        have := List.find?_some hfind
        simpa using this
    · rintro ⟨o, ho, hid⟩
      have hsome : (s.orders.find? (fun o => o.id == id)).isSome := by
        rw [List.find?_isSome]
        exact ⟨o, ho, by simpa using hid⟩
      cases hfind : s.orders.find? (fun o => o.id == id) with
      | none => simp [hfind] at hsome
      | some o' =>
        exact ⟨⟨strOr o'.createdBy "system", "ORDER_DELETED",
          "Commande " ++ o'.id ++ " supprimée"⟩, by simp [deleteOrder, hfind], rfl⟩

/-- C2: for an order stored once (no other order shares its id) with
`saleCreated = false`, updating its status to `completed` (different
from its current status, the update touching neither `id` nor
`finalAmount`) and then running the single deferred derivation this
schedules appends exactly one new Sale, whose `total` equals the
order's `finalAmount`, and sets the stored order's `saleCreated` to
`true`. -/
theorem C2_completed_derives_one_sale (t : Nat) (u : OrderUpdate) (o : Order)
    (pre post : List Order) (sales : List Sale) (log : List LogEntry)
    (hpre : ∀ x ∈ pre, x.id ≠ o.id) (hpost : ∀ x ∈ post, x.id ≠ o.id)
    (hsc : o.saleCreated = some false)
    (hst : u.status = some OrderStatus.completed)
    (hne : o.status ≠ OrderStatus.completed)
    (hid : u.id = none) (hfa : u.finalAmount = none) :
    (runOnePending t (updateOrder o.id u
        (SystemState.mk (pre ++ o :: post) sales log [] []))).sales =
      sales ++ [mkSale t (salePayload (mergeOrder o u))] ∧
    (mkSale t (salePayload (mergeOrder o u))).total = o.finalAmount ∧
    (runOnePending t (updateOrder o.id u
        (SystemState.mk (pre ++ o :: post) sales log [] []))).pending = [] ∧
    getOrderById o.id (runOnePending t (updateOrder o.id u
        (SystemState.mk (pre ++ o :: post) sales log [] []))) =
      some { mergeOrder o u with saleCreated := some true } := by
  have hmid : (mergeOrder o u).id = o.id := by simp [mergeOrder, hid]
  have hnsym : OrderStatus.completed ≠ o.status := Ne.symm hne
  have hnsale : ¬o.saleCreated = some true := by rw [hsc]; simp
  have hfo : updateOneOrder o.id u o =
      (mergeOrder o u,
        [⟨strOr o.createdBy "system", "ORDER_STATUS_UPDATED",
          "Statut de la commande " ++ o.id ++ " mis à jour: " ++
            o.status.render ++ " → " ++ OrderStatus.completed.render⟩],
        [mergeOrder o u]) := by
    simp [updateOneOrder, hst, hnsym, hnsale]
  have hresults : (pre ++ o :: post).map (updateOneOrder o.id u) =
      pre.map (fun x => (x, [], [])) ++
        updateOneOrder o.id u o :: post.map (fun x => (x, [], [])) := by
    rw [List.map_append, List.map_cons]
    rw [List.map_congr_left fun x hx => updateOneOrder_of_ne o.id u x (hpre x hx)]
    rw [List.map_congr_left fun x hx => updateOneOrder_of_ne o.id u x (hpost x hx)]
  have hupd : updateOrder o.id u (SystemState.mk (pre ++ o :: post) sales log [] []) =
      SystemState.mk (pre ++ mergeOrder o u :: post) sales
        (log ++ [⟨strOr o.createdBy "system", "ORDER_STATUS_UPDATED",
          "Statut de la commande " ++ o.id ++ " mis à jour: " ++
            o.status.render ++ " → " ++ OrderStatus.completed.render⟩])
        [] [mergeOrder o u] := by
    unfold updateOrder
    rw [hresults, hfo]
    simp [List.map_append, List.map_cons, List.map_map, Function.comp_def,
      List.flatten_append, flatten_map_nil]
  rw [hupd]
  have hguard : (([] : List String).contains (mergeOrder o u).id) = false := rfl
  have hrun : runOnePending t (SystemState.mk (pre ++ mergeOrder o u :: post) sales
        (log ++ [⟨strOr o.createdBy "system", "ORDER_STATUS_UPDATED",
          "Statut de la commande " ++ o.id ++ " mis à jour: " ++
            o.status.render ++ " → " ++ OrderStatus.completed.render⟩])
        [] [mergeOrder o u]) =
      SystemState.mk
        ((pre ++ mergeOrder o u :: post).map fun x =>
          if x.id = (mergeOrder o u).id then { x with saleCreated := some true } else x)
        (sales ++ [mkSale t (salePayload (mergeOrder o u))])
        ((log ++ [⟨strOr o.createdBy "system", "ORDER_STATUS_UPDATED",
          "Statut de la commande " ++ o.id ++ " mis à jour: " ++
            o.status.render ++ " → " ++ OrderStatus.completed.render⟩]) ++
          [⟨strOr (mergeOrder o u).createdBy "system", "SALE_CREATED_FROM_ORDER",
            "Vente créée à partir de la commande " ++ (mergeOrder o u).id⟩])
        ((((mergeOrder o u).id :: []).filter fun i => i ≠ (mergeOrder o u).id)) [] := by
    show createSaleFromOrder t (mergeOrder o u) _ = _
    unfold createSaleFromOrder
    rw [hguard]
    simp [addSale]
  rw [hrun]
  have hordmap : ((pre ++ mergeOrder o u :: post).map fun x =>
      if x.id = (mergeOrder o u).id then { x with saleCreated := some true } else x) =
      pre ++ { mergeOrder o u with saleCreated := some true } :: post := by
    rw [List.map_append, List.map_cons]
    rw [map_mark_no_match (mergeOrder o u).id pre fun x hx => by
      rw [hmid]; exact hpre x hx]
    rw [map_mark_no_match (mergeOrder o u).id post fun x hx => by
      rw [hmid]; exact hpost x hx]
    rw [if_pos rfl]
  refine ⟨rfl, ?_, rfl, ?_⟩
  · have hm : (mergeOrder o u).finalAmount = o.finalAmount := by simp [mergeOrder, hfa]
    simp [mkSale, salePayload, numOr_some_zero, hm]
  · unfold getOrderById
    simp only [hordmap]
    rw [List.find?_append]
    have hnone : pre.find? (fun x => x.id == o.id) = none := by
      rw [List.find?_eq_none]
      intro x hx
      simpa using hpre x hx
    rw [hnone]
    simp [hmid]

/-- The status-only update `{ status: 'completed' }`. -/
def completedUpdate : OrderUpdate := { status := some OrderStatus.completed }

/-- The status-only update `{ status: 'pending' }`. -/
def pendingUpdate : OrderUpdate := { status := some OrderStatus.pending }

/-- C2 witness: the theorem applied to a store holding only
`sampleOrder` (pending, `saleCreated = false`) at clock value 9. -/
theorem C2_witness :
    ((∀ x ∈ ([] : List Order), x.id ≠ sampleOrder.id) ∧
      sampleOrder.saleCreated = some false ∧
      completedUpdate.status = some OrderStatus.completed ∧
      sampleOrder.status ≠ OrderStatus.completed ∧
      completedUpdate.id = none ∧ completedUpdate.finalAmount = none) ∧
    ((runOnePending 9 (updateOrder sampleOrder.id completedUpdate
        (SystemState.mk [sampleOrder] [] [] [] []))).sales =
      [] ++ [mkSale 9 (salePayload (mergeOrder sampleOrder completedUpdate))] ∧
    (mkSale 9 (salePayload (mergeOrder sampleOrder completedUpdate))).total =
      sampleOrder.finalAmount ∧
    (runOnePending 9 (updateOrder sampleOrder.id completedUpdate
        (SystemState.mk [sampleOrder] [] [] [] []))).pending = [] ∧
    getOrderById sampleOrder.id (runOnePending 9 (updateOrder sampleOrder.id completedUpdate
        (SystemState.mk [sampleOrder] [] [] [] []))) =
      some { mergeOrder sampleOrder completedUpdate with saleCreated := some true }) :=
  ⟨⟨by simp, rfl, rfl, by decide, rfl, rfl⟩,
    C2_completed_derives_one_sale 9 completedUpdate sampleOrder [] [] [] []
      (by simp) (by simp) rfl rfl (by decide) rfl rfl⟩

/-- Completed → pending → completed again for `sampleOrder`, all before
any deferred callback has run: both `completed` transitions see
`saleCreated = false` and each schedules a deferred
`createSaleFromOrder`. -/
def doubleScheduled : SystemState :=
  updateOrder "ORD-100" completedUpdate
    (updateOrder "ORD-100" pendingUpdate
      (updateOrder "ORD-100" completedUpdate
        (SystemState.mk [sampleOrder] [] [] [] [])))

/-- ... then the event loop runs both deferred callbacks in order. -/
def afterBothDerivations : SystemState :=
  runOnePending 8 (runOnePending 7 doubleScheduled)

/-- C1: two `completed` transitions for the same order, both issued
while `saleCreated` is still `false` and before the deferred derivation
runs, queue two deferred `createSaleFromOrder` callbacks; after both
have executed, TWO derived sales exist for the order, not one.  Each
synchronous `createSaleFromOrder` call deletes the order id from the
in-progress set before returning and never re-checks the current
`saleCreated`, so the guard never blocks the second queued callback. -/
theorem C1_duplicate_sales :
    doubleScheduled.pending.length = 2 ∧
    (doubleScheduled.orders.map fun o => o.saleCreated) = [some false] ∧
    (doubleScheduled.pending.map fun o => o.saleCreated) = [some false, some false] ∧
    afterBothDerivations.pending = [] ∧
    afterBothDerivations.sales.length = 2 ∧
    (afterBothDerivations.sales.map fun sale => sale.total) = [18, 18] := by
  decide
